import Mathlib

/-!
Verification of the Canvas AI Co-Drawing Engine (layer registry, generation
pipeline, voice tool dispatch) against its specification.

The definitions below are a shallow embedding of the TypeScript source:

* `NexLayers` — the layer registry of `useLayers` (the richer variant, the one
  with `findOrCreateLayer` and the layer-shape index stored in page meta).
* `NexSolver` — the `generateSolution` pipeline of `useCanvasSolver`
  (three-source variant with `"auto" | "voice" | "chat"`), together with the
  editor-change listener that aborts an in-flight request.
* `NexRoute` — the two-stage `/api/generate-solution` POST handler.
* `NexVoice` — `handleFunctionCall` of `useVoiceAgent`.

External effects (remote calls, image decode, id generation, the abort
moment) are passed in as explicit environment values; React `useState` /
`useRef` cells become fields of explicit state records.
-/

namespace NexLayers

/-- `s.toLowerCase()` on the character list (ASCII case folding, which
covers every string the registry itself produces). -/
def toLowerChars (cs : List Char) : List Char :=
  cs.map Char.toLower

/-- `s.toLowerCase()`. -/
def jsToLower (s : String) : String :=
  String.mk (toLowerChars s.data)

/-- A character matched by the regex class `\s`. -/
def isWsChar (c : Char) : Bool :=
  c = ' ' || c = '\t' || c = '\n' || c = '\r'

/-- `.trim()` on the character list. -/
def jsTrimChars (cs : List Char) : List Char :=
  ((cs.dropWhile isWsChar).reverse.dropWhile isWsChar).reverse

/-- `.replace(/^layer\s+/i, '')` applied to an already lower-cased character
list: strips a leading `layer` followed by one or more whitespace characters
(greedily), and leaves the string unchanged when the prefix does not match. -/
def stripLayerWord : List Char → List Char
  | 'l' :: 'a' :: 'y' :: 'e' :: 'r' :: rest =>
      if rest.takeWhile isWsChar ≠ [] then rest.dropWhile isWsChar
      else 'l' :: 'a' :: 'y' :: 'e' :: 'r' :: rest
  | cs => cs

/-- `layerName.toLowerCase().replace(/^layer\s+/i, '').trim()` — the
normalization `findOrCreateLayer` applies to both the search string and each
existing layer name. -/
def normalizeLayerName (s : String) : String :=
  String.mk (jsTrimChars (stripLayerWord (toLowerChars s.data)))

/-- Test `layerName.match(/^layer\s+\d+$/i)`: the whole string is `layer`,
whitespace, then digits (case-insensitive). -/
def isLayerNumName (s : String) : Bool :=
  match toLowerChars s.data with
  | 'l' :: 'a' :: 'y' :: 'e' :: 'r' :: rest =>
      let ws := rest.takeWhile isWsChar
      let ds := rest.dropWhile isWsChar
      ws ≠ [] && ds ≠ [] && ds.all Char.isDigit
  | _ => false

/-- Test `layerName.match(/^\d+$/)`. -/
def isAllDigits (s : String) : Bool :=
  s.data ≠ [] && s.data.all Char.isDigit

/-- The digits of a decimal numeral, as a `Nat` (what `parseInt(m, 10)`
returns on the capture group of `/^Layer (\d+)$/i`). -/
def digitsToNat (cs : List Char) : Nat :=
  cs.foldl (fun acc c => acc * 10 + (c.toNat - '0'.toNat)) 0

/-- Match `l.name.match(/^Layer (\d+)$/i)` and return the captured number:
`layer` (case-insensitive), exactly one space, then digits to the end. -/
def layerNameNumber (s : String) : Option Nat :=
  match toLowerChars s.data with
  | 'l' :: 'a' :: 'y' :: 'e' :: 'r' :: ' ' :: ds =>
      if ds ≠ [] && ds.all Char.isDigit then some (digitsToNat ds) else none
  | _ => none

/-- The `Layer` record of the registry. -/
structure Layer where
  id : String
  name : String
  isVisible : Bool
  isLocked : Bool
deriving Repr, DecidableEq

/-- The React state owned by `useLayers`: the ordered layer list and the
active layer id. -/
structure LayerState where
  layers : List Layer
  activeLayerId : String
deriving Repr, DecidableEq

/-- The initial registry state: a single default layer. -/
def initialLayerState : LayerState :=
  { layers := [{ id := "default", name := "Layer 1", isVisible := true, isLocked := false }]
    activeLayerId := "default" }

/-- The predicate `findOrCreateLayer` uses to look for an existing layer:
normalized names are equal, or the id equals the raw argument, or the
lower-cased names are equal. -/
def layerMatches (layerName : String) (l : Layer) : Bool :=
  normalizeLayerName l.name == normalizeLayerName layerName
    || l.id == layerName
    || jsToLower l.name == jsToLower layerName

/-- The name given to a layer that `findOrCreateLayer` creates:
`layerName.match(/^layer\s+\d+$/i) ? layerName : (layerName.match(/^\d+$/) ?
`Layer ${layerName}` : layerName)`. -/
def createdLayerName (layerName : String) : String :=
  if isLayerNumName layerName then layerName
  else if isAllDigits layerName then "Layer " ++ layerName
  else layerName

/-- `findOrCreateLayer(layerName)`. The fresh id produced by
`layer-${Date.now()}-${random}` is passed in as `freshId`. Returns the
resolved id together with the updated registry state. -/
def findOrCreateLayer (st : LayerState) (layerName : String) (freshId : String) :
    String × LayerState :=
  match st.layers.find? (layerMatches layerName) with
  | some l => (l.id, { st with activeLayerId := l.id })
  | none =>
      let newLayer : Layer :=
        { id := freshId, name := createdLayerName layerName
          isVisible := true, isLocked := false }
      (freshId, { layers := st.layers ++ [newLayer], activeLayerId := freshId })

/-- The `nextNumber` computed by `addLayer`: one more than the largest
positive `/^Layer (\d+)$/i` suffix among the current layers (`Math.max` over
the matched numbers), `1` when there is none. -/
def nextLayerNumber (ls : List Layer) : Nat :=
  let layerNumbers :=
    (ls.map (fun l => (layerNameNumber l.name).getD 0)).filter (fun n => 0 < n)
  if layerNumbers ≠ [] then layerNumbers.foldl max 0 + 1 else 1

/-- `addLayer()`: name the new layer `Layer ${nextNumber}`, append it and
make it active. -/
def addLayer (st : LayerState) (freshId : String) : LayerState :=
  { layers := st.layers ++
      [{ id := freshId, name := "Layer " ++ toString (nextLayerNumber st.layers)
         isVisible := true, isLocked := false }]
    activeLayerId := freshId }

/-- `renameLayer(id, newName)`: pure metadata update on the layer list. -/
def renameLayer (st : LayerState) (id newName : String) : LayerState :=
  { st with layers := st.layers.map (fun l => if l.id = id then { l with name := newName } else l) }

/-- `moveLayer(id, direction)` restricted to its effect on the layer list
(the `bringToFront` re-stacking acts on the editor, not on this state). -/
def moveLayer (st : LayerState) (id : String) (up : Bool) : LayerState :=
  match st.layers.findIdx? (fun l => l.id = id) with
  | none => st
  | some index =>
      if up && index = st.layers.length - 1 then st
      else if !up && index = 0 then st
      else
        match st.layers.get? index with
        | none => st
        | some m =>
            let nextIndex := if up then index + 1 else index - 1
            let removed := st.layers.eraseIdx index
            { st with layers := removed.take nextIndex ++ [m] ++ removed.drop nextIndex }

/-- The layer-shape index (`layerShapeMap` in page meta): an association list
from layer id to the ordered list of shape ids on that layer.  List order of
the entries models JS object key insertion order. -/
abbrev ShapeMap := List (String × List Nat)

/-- `map[key]` on a JS object. -/
def lookupMap (map : ShapeMap) (key : String) : Option (List Nat) :=
  (List.find? (fun e => e.1 = key) map).map Prod.snd

/-- `{ ...map, [key]: value }`: overwrite in place when the key exists,
append a new entry otherwise. -/
def setKey (map : ShapeMap) (key : String) (value : List Nat) : ShapeMap :=
  if (lookupMap map key).isSome then
    map.map (fun e => if e.1 = key then (e.1, value) else e)
  else map ++ [(key, value)]

/-- `assignShapeToLayer(shapeId, layerId)`: filter the id out of every other
layer's list (writing back only lists that changed, which is observationally
the filtered list either way), then append it to the target layer's list
unless already present. -/
def assignShapeToLayer (map : ShapeMap) (shapeId : Nat) (layerId : String) : ShapeMap :=
  let next := map.map (fun e =>
    if e.1 = layerId then e else (e.1, e.2.filter (fun i => i ≠ shapeId)))
  match lookupMap next layerId with
  | some ids =>
      if shapeId ∈ ids then next
      else next.map (fun e => if e.1 = layerId then (e.1, e.2 ++ [shapeId]) else e)
  | none => next ++ [(layerId, [shapeId])]

/-- Registry state including the editor-held data the layer operations read
and write: the layer-shape index in page meta and the ids of the shapes on
the current page. -/
structure RegistryState where
  layerSt : LayerState
  shapeMap : ShapeMap
  pageShapes : List Nat
deriving Repr, DecidableEq

/-- The initial registry state: one default layer, empty index, no shapes. -/
def initialRegistry : RegistryState :=
  { layerSt := initialLayerState, shapeMap := [], pageShapes := [] }

/-- `getLayerShapeIds(id)`: the indexed ids restricted to shapes that still
exist; when stale ids were dropped the repaired list is written back to the
index.  Returns the existing ids and the (possibly repaired) index. -/
def getLayerShapeIdsMap (st : RegistryState) (id : String) : List Nat × ShapeMap :=
  let ids := (lookupMap st.shapeMap id).getD []
  let existing := ids.filter (fun i => i ∈ st.pageShapes)
  if existing.length ≠ ids.length then (existing, setKey st.shapeMap id existing)
  else (existing, st.shapeMap)

/-- `deleteLayer(id)` of the registry: guarded by
`id === 'default' && layers.length === 1`; otherwise deletes the shapes
indexed under the layer, drops the index entry, removes the layer, and when
the deleted layer was active activates `filtered[currentIndex]`, else the
last remaining layer, else `'default'`. -/
def deleteLayer (st : RegistryState) (id : String) : RegistryState :=
  if id = "default" ∧ st.layerSt.layers.length = 1 then st
  else
    let resolved := getLayerShapeIdsMap st id
    let shapesToDelete := resolved.1
    let map1 := resolved.2
    let pageShapes' := st.pageShapes.filter (fun i => i ∉ shapesToDelete)
    let map2 :=
      if (lookupMap map1 id).isSome then map1.filter (fun e => e.1 ≠ id) else map1
    let filtered := st.layerSt.layers.filter (fun l => l.id ≠ id)
    let active' :=
      if st.layerSt.activeLayerId = id then
        let nextLayer :=
          match st.layerSt.layers.findIdx? (fun l => l.id = id) with
          | some i => ((filtered.get? i).map Layer.id).getD
              (((filtered.getLast?).map Layer.id).getD "default")
          | none => ((filtered.getLast?).map Layer.id).getD "default"
        nextLayer
      else st.layerSt.activeLayerId
  { layerSt := { layers := filtered, activeLayerId := active' }
    shapeMap := map2, pageShapes := pageShapes' }

/-- `addLayer` on the full registry state (it touches only the layer list
and the active id). -/
def addLayerR (st : RegistryState) (freshId : String) : RegistryState :=
  { st with layerSt := addLayer st.layerSt freshId }

/-- `renameLayer` on the full registry state. -/
def renameLayerR (st : RegistryState) (id newName : String) : RegistryState :=
  { st with layerSt := renameLayer st.layerSt id newName }

/-- `moveLayer` on the full registry state (its `bringToFront` calls reorder
the editor's z order, not any data this state tracks). -/
def moveLayerR (st : RegistryState) (id : String) (up : Bool) : RegistryState :=
  { st with layerSt := moveLayer st.layerSt id up }

end NexLayers

namespace NexSolver

open NexLayers

/-- The request source: `options?.source` of `generateSolution`. -/
inductive Source
  | auto | voice | chat
deriving Repr, DecidableEq

/-- The `StatusIndicatorState` values the solver uses. -/
inductive SolverStatus
  | idle | generating | success | error
deriving Repr, DecidableEq

/-- The options object passed to `generateSolution` (reference images are
only forwarded, so they are elided). -/
structure GenOptions where
  promptOverride : Option String := none
  source : Option Source := none
deriving Repr, DecidableEq

/-- The five `await` boundaries inside `generateSolution` at which a user
edit (and hence the abort of the in-flight controller) can be observed. -/
inductive AbortPoint
  | duringToImage | duringFetch | duringJson | duringProcess | duringImgLoad
deriving Repr, DecidableEq

/-- The mutable cells of `useCanvasSolver` plus the editor data it touches:
`status`/`statusMessage`/`errorMessage`/`pendingImageIds`/`isAIEnabled`
(React state), `isProcessingRef`/`abortControllerRef`/`isUpdatingImageRef`
(refs), the current page's shape ids and assets, and the layer registry
state backing the `findOrCreateLayer`/`activeLayerId`/`layers` wiring. -/
structure SolverState where
  status : SolverStatus
  statusMessage : String
  errorMessage : String
  pendingImageIds : List Nat
  isAIEnabled : Bool
  isProcessing : Bool
  hasController : Bool
  isUpdatingImage : Bool
  canvasShapes : List Nat
  assets : List Nat
  layerSt : LayerState
  shapeMap : ShapeMap
deriving Repr, DecidableEq

/-- The state of the hook as first mounted on an empty canvas. -/
def initialSolverState : SolverState :=
  { status := .idle, statusMessage := "", errorMessage := ""
    pendingImageIds := [], isAIEnabled := true
    isProcessing := false, hasController := false, isUpdatingImage := false
    canvasShapes := [], assets := []
    layerSt := initialLayerState, shapeMap := [] }

/-- The resolution of everything outside the hook: whether the editor is
mounted, the outcome of each remote/asynchronous step, the response fields,
the fresh ids, and the `await` boundary (if any) at which the user edits the
canvas while the request is in flight. -/
structure GenEnv where
  hasEditor : Bool := true
  toImageOk : Bool := true
  fetchOk : Bool := true
  imageUrl : Option String := none
  textContent : String := ""
  targetLayer : Option String := none
  processOk : Bool := true
  decodeOk : Bool := true
  newAssetId : Nat := 0
  newShapeId : Nat := 0
  freshLayerId : String := "layer-new"
  abortAt : Option AbortPoint := none
deriving Repr, DecidableEq

/-- The value `generateSolution` resolves with. -/
structure GenResult where
  success : Bool
  textContent : String
deriving Repr, DecidableEq

/-- A complete run: final state, resolved value, whether the outbound
`fetch` was issued, and whether the editor-change listener aborted the
in-flight controller during the run. -/
structure GenOutcome where
  state : SolverState
  result : GenResult
  remoteCalled : Bool
  abortFired : Bool
deriving Repr, DecidableEq

/-- `handleEditorChange` on a user edit: ignored while `isUpdatingImageRef`
is set; otherwise, when a controller is live, aborts it, clears it, resets
status to idle and releases the re-entrancy flag.  The returned flag says
whether `abort()` was called (the in-flight signal became aborted). -/
def applyUserEdit (st : SolverState) : SolverState × Bool :=
  if st.isUpdatingImage then (st, false)
  else if st.hasController then
    ({ st with hasController := false, status := .idle, statusMessage := ""
               isProcessing := false }, true)
  else (st, false)

/-- Observe one `await` boundary: when the environment schedules the user
edit at `p`, the editor-change listener runs there. -/
def atAwait (env : GenEnv) (p : AbortPoint) (st : SolverState) (aborted : Bool) :
    SolverState × Bool :=
  if env.abortAt = some p then
    let e := applyUserEdit st
    (e.1, aborted || e.2)
  else (st, aborted)

/-- The `finally` block: release the re-entrancy flag and drop the
controller. -/
def applyFinally (st : SolverState) : SolverState :=
  { st with isProcessing := false, hasController := false }

/-- The `catch` block: on an aborted signal, silently return to idle;
otherwise record the error message and enter the error status (the delayed
3-second reset is outside the call). -/
def catchBranch (st : SolverState) (aborted : Bool) (msg : String) :
    SolverState × GenResult :=
  if aborted then
    ({ st with status := .idle, statusMessage := "" }, ⟨false, ""⟩)
  else
    ({ st with errorMessage := msg, status := .error, statusMessage := "" }, ⟨false, ""⟩)

/-- JS `a || b` on strings (empty string is falsy). -/
def jsOr (a b : String) : String :=
  if a = "" then b else a

/-- The tail of the success path, from `isUpdatingImageRef.current = true`
on: create the asset, resolve the destination layer (explicit target name
via `findOrCreateLayer`, else `activeLayerId || layers[0]?.id || 'default'`),
compute the initial opacity from the (pre-resolution) layer list, create the
locked pending shape, index it, append it to `pendingImageIds`, and enter
the success status (the delayed resets are outside the call). -/
def commitShape (env : GenEnv) (st : SolverState) : GenOutcome :=
  let st1 := { st with isUpdatingImage := true, assets := st.assets ++ [env.newAssetId] }
  let defaultDest :=
    jsOr st1.layerSt.activeLayerId
      (jsOr (((st1.layerSt.layers.head?).map Layer.id).getD "") "default")
  let dest : String × LayerState :=
    match env.targetLayer with
    | some n => if n ≠ "" then findOrCreateLayer st1.layerSt n env.freshLayerId
                else (defaultDest, st1.layerSt)
    | none => (defaultDest, st1.layerSt)
  let st2 := { st1 with layerSt := dest.2 }
  let st3 := { st2 with canvasShapes := st2.canvasShapes ++ [env.newShapeId]
                        shapeMap := assignShapeToLayer st2.shapeMap env.newShapeId dest.1
                        pendingImageIds := st2.pendingImageIds ++ [env.newShapeId]
                        status := .success, statusMessage := "Success!" }
  ⟨applyFinally st3, ⟨true, env.textContent⟩, true, false⟩

/-- The pipeline from the parsed response on: the `!imageUrl || aborted`
text-only branch, the white-background processing, the image decode, the
late abort check, then `commitShape`. -/
def afterJson (env : GenEnv) (st : SolverState) (aborted : Bool) : GenOutcome :=
  if env.imageUrl = none ∨ aborted = true then
    ⟨applyFinally { st with status := .idle, statusMessage := "", isProcessing := false },
      ⟨true, env.textContent⟩, true, aborted⟩
  else if aborted = true then
    ⟨applyFinally st, ⟨false, ""⟩, true, aborted⟩
  else
    let p1 := atAwait env .duringProcess st aborted
    if env.processOk = false then
      let c := catchBranch p1.1 p1.2 "Failed to load image for processing"
      ⟨applyFinally c.1, c.2, true, p1.2⟩
    else
      let p2 := atAwait env .duringImgLoad p1.1 p1.2
      if env.decodeOk = false then
        let c := catchBranch p2.1 p2.2 "Failed to load generated image"
        ⟨applyFinally c.1, c.2, true, p2.2⟩
      else if p2.2 = true then
        ⟨applyFinally p2.1, ⟨false, ""⟩, true, p2.2⟩
      else
        commitShape env p2.1

/-- The pipeline from the outbound `fetch` on: a rejected fetch (abort) goes
to the catch block; a non-OK response throws; otherwise the body is read and
`afterJson` continues. -/
def runFetch (env : GenEnv) (st : SolverState) : GenOutcome :=
  let p := atAwait env .duringFetch st false
  if p.2 = true then
    let c := catchBranch p.1 true "Solution generation failed"
    ⟨applyFinally c.1, c.2, true, true⟩
  else if env.fetchOk = false then
    let c := catchBranch p.1 false "Solution generation failed"
    ⟨applyFinally c.1, c.2, true, false⟩
  else
    let q := atAwait env .duringJson p.1 false
    afterJson env q.1 q.2

/-- `[...shapeIds].filter(id => !pendingImageIds.includes(id))`: the shapes
sent as the snapshot, excluding staged pending overlays. -/
def captureList (st : SolverState) : List Nat :=
  st.canvasShapes.filter (fun i => !st.pendingImageIds.contains i)

/-- The body of the `try` block: snapshot capture restricted to
non-pending shapes (`await editor.toImage` only when that list is
non-empty), the missing-blob early return (`blob` is null exactly when a
capture was attempted and `toImage` produced none), the first abort check,
then status `generating` and the fetch. -/
def runTry (env : GenEnv) (st : SolverState) : GenOutcome :=
  let p := if (captureList st).isEmpty then (st, false)
           else atAwait env .duringToImage st false
  if !(captureList st).isEmpty && !env.toImageOk then
    ⟨applyFinally { p.1 with isProcessing := false }, ⟨false, ""⟩, false, p.2⟩
  else if p.2 then
    ⟨applyFinally p.1, ⟨false, ""⟩, false, p.2⟩
  else
    runFetch env { p.1 with status := .generating, statusMessage := "Thinking..." }

/-- `generateSolution(options)`: the entry guards, then acquisition of the
re-entrancy flag and a fresh abort controller, then the `try` body.
`voiceActive` is the `isVoiceSessionActive` prop. -/
def generateSolution (env : GenEnv) (opts : GenOptions) (voiceActive : Bool)
    (st0 : SolverState) : GenOutcome :=
  if env.hasEditor = false ∨ st0.isProcessing = true ∨
      (voiceActive = true ∧ opts.source ≠ some .voice) then
    ⟨st0, ⟨false, ""⟩, false, false⟩
  else if st0.isAIEnabled = false ∧ opts.source = some .auto then
    ⟨st0, ⟨false, ""⟩, false, false⟩
  else if st0.canvasShapes = [] ∧ opts.source ≠ some .chat ∧ opts.source ≠ some .voice then
    ⟨st0, ⟨false, ""⟩, false, false⟩
  else
    runTry env { st0 with isProcessing := true, hasController := true }

/-- A run left the canvas untouched: no asset, no shape, nothing appended
to `pendingImageIds`, no error message recorded, and the status at idle. -/
def SideEffectFree (a b : SolverState) : Prop :=
  a.assets = b.assets ∧ a.canvasShapes = b.canvasShapes ∧
  a.pendingImageIds = b.pendingImageIds ∧ a.errorMessage = b.errorMessage ∧
  a.status = .idle

end NexSolver

namespace NexRoute

/-- The fields of the request the POST handler reads: whether a canvas
snapshot file was attached, the optional prompt, and the declared source. -/
structure RouteReq where
  hasImage : Bool := true
  prompt : Option String := none
  source : Option String := none
deriving Repr, DecidableEq

/-- The parsed stage-1 classifier JSON: `intentData.message || ""` and the
optional `intent` field. -/
structure ClassifierResp where
  message : String := ""
  intent : Option String := none
deriving Repr, DecidableEq

/-- The stage-2 artist response: `response.text` and the first inline image
part (already rendered as a data URL), if any. -/
structure ArtistResp where
  text : String := ""
  image : Option String := none
deriving Repr, DecidableEq

/-- The JSON body the route responds with. -/
structure RouteResp where
  success : Bool
  imageUrl : Option String
  textContent : String
deriving Repr, DecidableEq

/-- JS truthiness of the `prompt` form field. -/
def promptTruthy (p : Option String) : Bool :=
  match p with
  | some s => s ≠ ""
  | none => false

/-- The canned apology returned when a drawing intent has no canvas
snapshot to work from. -/
def fallbackDrawText : String :=
  "I'd love to help you draw that, but I need to see the canvas first. Try drawing a quick sketch!"

/-- Stage 1 (intent classification), run only for `source === 'chat'` with a
truthy prompt: yields `(textContent, shouldDraw, ranClassifier)`; otherwise
`textContent` stays `""` and `shouldDraw` stays `true`. -/
def classifierStage (req : RouteReq) (c : ClassifierResp) : String × Bool × Bool :=
  if req.source = some "chat" ∧ promptTruthy req.prompt = true then
    (c.message, (c.intent.map NexLayers.jsToLower) = some "draw", true)
  else ("", true, false)

/-- `POST /api/generate-solution` with the two remote stage responses given:
a non-drawing classification returns success with text only; a drawing
intent without a snapshot returns the canned apology; otherwise stage 2 runs
and the final text prefers the stage-1 message over the artist text. -/
def routePOST (req : RouteReq) (c : ClassifierResp) (a : ArtistResp) : RouteResp :=
  let s1 := classifierStage req c
  let textContent := s1.1
  let shouldDraw := s1.2.1
  let ranClassifier := s1.2.2
  if ranClassifier = true ∧ shouldDraw = false then
    { success := true, imageUrl := none, textContent := textContent }
  else if shouldDraw = true ∧ req.hasImage = false then
    { success := false, imageUrl := none
      textContent := NexSolver.jsOr textContent fallbackDrawText }
  else
    { success := a.image.isSome, imageUrl := a.image
      textContent := NexSolver.jsOr (NexSolver.jsOr textContent a.text) "" }

end NexRoute

namespace NexVoice

/-- The `VoiceStatus` union of `useVoiceAgent`. -/
inductive VoiceStatus
  | idle | connecting | listening | thinking | callingTool | error
deriving Repr, DecidableEq

/-- The session-visible state `handleFunctionCall` touches: status, status
detail, and whether the session is active (it never calls `stopSession`). -/
structure VoiceState where
  status : VoiceStatus
  statusDetail : Option String
  isSessionActive : Bool
deriving Repr, DecidableEq

/-- A healthy mid-session state. -/
def listeningState : VoiceState :=
  { status := .listening, statusDetail := none, isSessionActive := true }

/-- The payload of a `function_call_output` item. -/
inductive ToolPayload
  | analysis (text : String)
  | drawSuccess (ok : Bool)
  | errorOut (msg : String)
deriving Repr, DecidableEq

/-- A message sent on the `oai-events` control channel by the dispatcher. -/
inductive CtrlMsg
  | functionCallOutput (callId : String) (payload : ToolPayload)
  | responseCreate
deriving Repr, DecidableEq

/-- Parsed tool arguments (`JSON.parse` succeeded). -/
structure ToolArgs where
  focus : Option String := none
  instructions : Option String := none
deriving Repr, DecidableEq

/-- The resolution of the `onSolveWithPrompt` promise: a boolean, or a
rejection with an error message. -/
inductive DrawOutcome
  | ok (b : Bool)
  | threw (msg : String)
deriving Repr, DecidableEq

/-- Resolution of the two tool bodies' external steps:
`captureCanvasImage` (null on an empty canvas), the analysis fetch, the
analysis text, and the `onSolveWithPrompt` promise (which may reject). -/
structure VoiceEnv where
  analyzeImage : Option String := none
  analyzeFetchOk : Bool := true
  analysisText : String := ""
  drawResult : DrawOutcome := .ok true
deriving Repr, DecidableEq

/-- `setErrorStatus(message)`. -/
def setErrorStatus (st : VoiceState) (msg : String) : VoiceState :=
  { st with status := .error, statusDetail := some msg }

/-- The shared `catch` of `handleFunctionCall`: send a structured error
output and a `response.create`, then set the error status with the
descriptive `Tool ${name} failed: ...` message. -/
def toolCatch (st : VoiceState) (name callId msg : String) : VoiceState × List CtrlMsg :=
  (setErrorStatus st ("Tool " ++ name ++ " failed: " ++ msg),
   [.functionCallOutput callId (.errorOut msg), .responseCreate])

/-- `handleFunctionCall(name, argsJson, callId)`.  `hasChannel` models
`dcRef.current` being non-null; `args = none` models a `JSON.parse` failure
on the arguments. -/
def handleFunctionCall (hasChannel : Bool) (name : String) (args : Option ToolArgs)
    (callId : String) (env : VoiceEnv) (st : VoiceState) : VoiceState × List CtrlMsg :=
  if hasChannel = false then (st, [])
  else
    match args with
    | none => (setErrorStatus st ("Failed to parse tool arguments for " ++ name), [])
    | some _ =>
        if name = "analyze_workspace" then
          let st1 : VoiceState :=
            { st with status := .callingTool, statusDetail := some "Analyzing your canvas..." }
          match env.analyzeImage with
          | none => toolCatch st1 name callId "Canvas is empty or could not be captured"
          | some _ =>
              if env.analyzeFetchOk = false then
                toolCatch st1 name callId "Workspace analysis request failed"
              else
                ({ st1 with status := .thinking, statusDetail := none },
                 [.functionCallOutput callId (.analysis env.analysisText), .responseCreate])
        else if name = "draw_on_canvas" then
          let st1 : VoiceState :=
            { st with status := .callingTool, statusDetail := some "Updating your canvas..." }
          match env.drawResult with
          | .ok b =>
              ({ st1 with status := .thinking, statusDetail := none },
               [.functionCallOutput callId (.drawSuccess b), .responseCreate])
          | .threw m => toolCatch st1 name callId m
        else (st, [])

/-- The number of `function_call_output` messages carrying the given call
id in a message list. -/
def countOutputs (msgs : List CtrlMsg) (callId : String) : Nat :=
  msgs.countP (fun m =>
    match m with
    | .functionCallOutput c _ => c = callId
    | _ => false)

end NexVoice

namespace NexSolver

@[simp] theorem applyUserEdit_assets (st : SolverState) :
    (applyUserEdit st).1.assets = st.assets := by
  unfold applyUserEdit; split_ifs <;> rfl

@[simp] theorem applyUserEdit_canvasShapes (st : SolverState) :
    (applyUserEdit st).1.canvasShapes = st.canvasShapes := by
  unfold applyUserEdit; split_ifs <;> rfl

@[simp] theorem applyUserEdit_pending (st : SolverState) :
    (applyUserEdit st).1.pendingImageIds = st.pendingImageIds := by
  unfold applyUserEdit; split_ifs <;> rfl

@[simp] theorem applyUserEdit_errorMessage (st : SolverState) :
    (applyUserEdit st).1.errorMessage = st.errorMessage := by
  unfold applyUserEdit; split_ifs <;> rfl

@[simp] theorem applyUserEdit_shapeMap (st : SolverState) :
    (applyUserEdit st).1.shapeMap = st.shapeMap := by
  unfold applyUserEdit; split_ifs <;> rfl

theorem applyUserEdit_fired_status (st : SolverState) (h : (applyUserEdit st).2 = true) :
    (applyUserEdit st).1.status = .idle := by
  unfold applyUserEdit at *; split_ifs at * <;> simp_all

@[simp] theorem atAwait_assets (env : GenEnv) (p : AbortPoint) (st : SolverState) (ab : Bool) :
    (atAwait env p st ab).1.assets = st.assets := by
  unfold atAwait; split_ifs <;> simp

@[simp] theorem atAwait_canvasShapes (env : GenEnv) (p : AbortPoint) (st : SolverState)
    (ab : Bool) : (atAwait env p st ab).1.canvasShapes = st.canvasShapes := by
  unfold atAwait; split_ifs <;> simp

@[simp] theorem atAwait_pending (env : GenEnv) (p : AbortPoint) (st : SolverState) (ab : Bool) :
    (atAwait env p st ab).1.pendingImageIds = st.pendingImageIds := by
  unfold atAwait; split_ifs <;> simp

@[simp] theorem atAwait_errorMessage (env : GenEnv) (p : AbortPoint) (st : SolverState)
    (ab : Bool) : (atAwait env p st ab).1.errorMessage = st.errorMessage := by
  unfold atAwait; split_ifs <;> simp

@[simp] theorem atAwait_shapeMap (env : GenEnv) (p : AbortPoint) (st : SolverState) (ab : Bool) :
    (atAwait env p st ab).1.shapeMap = st.shapeMap := by
  unfold atAwait; split_ifs <;> simp

theorem atAwait_fired_status (env : GenEnv) (p : AbortPoint) (st : SolverState)
    (h : (atAwait env p st false).2 = true) : (atAwait env p st false).1.status = .idle := by
  unfold atAwait at *; split_ifs at * <;> simp_all [applyUserEdit_fired_status]

theorem atAwait_none (env : GenEnv) (p : AbortPoint) (st : SolverState) (ab : Bool)
    (h : env.abortAt = none) : atAwait env p st ab = (st, ab) := by
  simp [atAwait, h]

@[simp] theorem applyFinally_status (st : SolverState) :
    (applyFinally st).status = st.status := rfl
@[simp] theorem applyFinally_assets (st : SolverState) :
    (applyFinally st).assets = st.assets := rfl
@[simp] theorem applyFinally_canvasShapes (st : SolverState) :
    (applyFinally st).canvasShapes = st.canvasShapes := rfl
@[simp] theorem applyFinally_pending (st : SolverState) :
    (applyFinally st).pendingImageIds = st.pendingImageIds := rfl
@[simp] theorem applyFinally_errorMessage (st : SolverState) :
    (applyFinally st).errorMessage = st.errorMessage := rfl
@[simp] theorem applyFinally_shapeMap (st : SolverState) :
    (applyFinally st).shapeMap = st.shapeMap := rfl
@[simp] theorem applyFinally_isProcessing (st : SolverState) :
    (applyFinally st).isProcessing = false := rfl

@[simp] theorem catchBranch_true (st : SolverState) (msg : String) :
    catchBranch st true msg =
      ({ st with status := .idle, statusMessage := "" }, ⟨false, ""⟩) := rfl

theorem atAwait_chain_fired_status (env : GenEnv) (p q : AbortPoint) (st : SolverState)
    (hpq : p ≠ q)
    (h : (atAwait env q (atAwait env p st false).1 (atAwait env p st false).2).2 = true) :
    (atAwait env q (atAwait env p st false).1 (atAwait env p st false).2).1.status = .idle := by
  unfold atAwait at *
  by_cases h1 : env.abortAt = some p <;> by_cases h2 : env.abortAt = some q <;>
    simp_all [applyUserEdit_fired_status]

theorem afterJson_abort (env : GenEnv) (st : SolverState) (ab : Bool)
    (h : (afterJson env st ab).abortFired = true) :
    SideEffectFree (afterJson env st ab).state st := by
  unfold afterJson SideEffectFree at *
  split_ifs at * <;>
    try simp_all [atAwait_fired_status]
  by_cases hc : (atAwait env .duringImgLoad (atAwait env .duringProcess st false).1
      (atAwait env .duringProcess st false).2).2 = true
  · simp_all [atAwait_chain_fired_status env .duringProcess .duringImgLoad st (by decide)]
  · simp_all [commitShape]

theorem runFetch_abort (env : GenEnv) (st : SolverState)
    (h : (runFetch env st).abortFired = true) :
    SideEffectFree (runFetch env st).state st := by
  unfold runFetch at *
  by_cases hp : (atAwait env .duringFetch st false).2 = true
  · simp_all [SideEffectFree, atAwait_fired_status]
  · by_cases hf : env.fetchOk = false
    · simp_all
    · simp only [hp, hf, if_neg, if_false] at h ⊢
      have h3 := afterJson_abort env _ _ h
      unfold SideEffectFree at h3 ⊢
      simp_all

theorem runTry_abort (env : GenEnv) (st : SolverState)
    (h : (runTry env st).abortFired = true) :
    SideEffectFree (runTry env st).state st := by
  unfold runTry at *
  cases hcap : (captureList st).isEmpty with
  | true =>
      simp only [hcap] at h ⊢
      simp only [if_true, Bool.not_true, Bool.false_and, Bool.if_false_left] at h ⊢
      simp at h ⊢
      have h3 := runFetch_abort env _ h
      unfold SideEffectFree at h3 ⊢
      simp_all
  | false =>
      by_cases hb : env.toImageOk = false
      · simp [hcap, hb] at h ⊢
        have h4 := atAwait_fired_status env .duringToImage st h
        unfold SideEffectFree
        simp_all
      · by_cases hp : (atAwait env .duringToImage st false).2 = true
        · simp [hcap, hb, hp] at h ⊢
          have h4 := atAwait_fired_status env .duringToImage st hp
          unfold SideEffectFree
          simp_all
        · simp [hcap, hb, hp] at h ⊢
          have h3 := runFetch_abort env _ h
          unfold SideEffectFree at h3 ⊢
          simp_all

theorem generateSolution_abort (env : GenEnv) (opts : GenOptions) (voiceActive : Bool)
    (st0 : SolverState)
    (h : (generateSolution env opts voiceActive st0).abortFired = true) :
    SideEffectFree (generateSolution env opts voiceActive st0).state st0 := by
  unfold generateSolution at *
  split_ifs at *
  have h3 := runTry_abort env _ h
  unfold SideEffectFree at h3 ⊢
  simp_all

/-- C2: a generation request whose abort controller is fired by a user edit
while the request is in flight applies none of its side effects — no asset
is created, no shape is created, nothing is appended to `pendingImageIds`,
the error message is untouched — and the status is left at idle, even when
the remote response had already arrived by the time the abort is observed
(abort points after the fetch). -/
theorem generateSolution_cancelled_no_side_effects (env : GenEnv) (opts : GenOptions)
    (voiceActive : Bool) (st0 : SolverState)
    (h : (generateSolution env opts voiceActive st0).abortFired = true) :
    (generateSolution env opts voiceActive st0).state.assets = st0.assets ∧
    (generateSolution env opts voiceActive st0).state.canvasShapes = st0.canvasShapes ∧
    (generateSolution env opts voiceActive st0).state.pendingImageIds = st0.pendingImageIds ∧
    (generateSolution env opts voiceActive st0).state.errorMessage = st0.errorMessage ∧
    (generateSolution env opts voiceActive st0).state.status = SolverStatus.idle :=
  generateSolution_abort env opts voiceActive st0 h

/-- Witness for C2: a concrete run (chat request on a one-shape canvas,
response already parsed with an image attached, user edit observed at the
body-read boundary) in which the abort fired, instantiating the theorem. -/
theorem generateSolution_cancelled_no_side_effects_witness :
    ((generateSolution { imageUrl := some "img", abortAt := some AbortPoint.duringJson }
        { source := some Source.chat } false
        { initialSolverState with canvasShapes := [1] }).abortFired = true) ∧
    ((generateSolution { imageUrl := some "img", abortAt := some AbortPoint.duringJson }
        { source := some Source.chat } false
        { initialSolverState with canvasShapes := [1] }).state.status = SolverStatus.idle) :=
  ⟨by decide,
   (generateSolution_cancelled_no_side_effects _ _ _ _ (by decide)).2.2.2.2⟩

end NexSolver

namespace NexSolver

theorem commitShape_isProcessing (env : GenEnv) (st : SolverState) :
    (commitShape env st).state.isProcessing = false := rfl

theorem afterJson_isProcessing (env : GenEnv) (st : SolverState) (ab : Bool) :
    (afterJson env st ab).state.isProcessing = false := by
  unfold afterJson
  split_ifs <;>
    try simp [commitShape_isProcessing]
  by_cases hc : (atAwait env AbortPoint.duringImgLoad
      (atAwait env AbortPoint.duringProcess st ab).1
      (atAwait env AbortPoint.duringProcess st ab).2).2 = true <;>
    simp [hc, commitShape_isProcessing]

theorem runFetch_isProcessing (env : GenEnv) (st : SolverState) :
    (runFetch env st).state.isProcessing = false := by
  unfold runFetch
  by_cases hp : (atAwait env AbortPoint.duringFetch st false).2 = true <;>
    split_ifs <;> simp [hp, afterJson_isProcessing]

theorem runTry_isProcessing (env : GenEnv) (st : SolverState) :
    (runTry env st).state.isProcessing = false := by
  unfold runTry
  cases hcap : (captureList st).isEmpty <;>
    by_cases hp : (atAwait env AbortPoint.duringToImage st false).2 = true <;>
    split_ifs <;> simp [hcap, hp, runFetch_isProcessing]

theorem afterJson_remoteCalled (env : GenEnv) (st : SolverState) (ab : Bool) :
    (afterJson env st ab).remoteCalled = true := by
  unfold afterJson
  split_ifs <;>
    try simp [commitShape]
  by_cases hc : (atAwait env AbortPoint.duringImgLoad
      (atAwait env AbortPoint.duringProcess st ab).1
      (atAwait env AbortPoint.duringProcess st ab).2).2 = true <;>
    simp [hc, commitShape]

theorem runFetch_remoteCalled (env : GenEnv) (st : SolverState) :
    (runFetch env st).remoteCalled = true := by
  unfold runFetch
  by_cases hp : (atAwait env AbortPoint.duringFetch st false).2 = true <;>
    split_ifs <;> simp [hp, afterJson_remoteCalled]

/-- C9: an invocation of `generateSolution` started while no other request
holds the re-entrancy flag leaves `isProcessingRef` false on every return
path — guard rejection, missing blob, non-drawing success, drawing success,
error, or abort — so a finished request never blocks later ones. -/
theorem generateSolution_releases_processing_flag (env : GenEnv) (opts : GenOptions)
    (voiceActive : Bool) (st0 : SolverState) (h : st0.isProcessing = false) :
    (generateSolution env opts voiceActive st0).state.isProcessing = false := by
  unfold generateSolution
  split_ifs <;> simp [h, runTry_isProcessing]

/-- Witness for C9: the flag is free before and after a concrete auto
request on an empty canvas (guard-rejected) and after a concrete completed
chat request. -/
theorem generateSolution_releases_processing_flag_witness :
    (generateSolution {} { source := some Source.auto } false
        initialSolverState).state.isProcessing = false ∧
    (generateSolution { imageUrl := some "img" } { source := some Source.chat } false
        { initialSolverState with canvasShapes := [1] }).state.isProcessing = false :=
  ⟨generateSolution_releases_processing_flag _ _ _ _ (by decide),
   generateSolution_releases_processing_flag _ _ _ _ (by decide)⟩

/-- C3: the entry guards of `generateSolution`.  Each rejected case returns
`{ success: false, textContent: "" }` with the state untouched and no
remote call issued: (i) a request while one is already in flight, (ii) a
request not from voice while a voice session is active, (iii) an auto
request while auto-mode is disabled, (iv) an auto request against an empty
canvas.  (v) An empty canvas does not block a chat or voice request: the
pipeline proceeds to the outbound remote call. -/
theorem generateSolution_entry_guards (env : GenEnv) (opts : GenOptions)
    (voiceActive : Bool) (st0 : SolverState) :
    (st0.isProcessing = true →
       generateSolution env opts voiceActive st0 = ⟨st0, ⟨false, ""⟩, false, false⟩) ∧
    (voiceActive = true → opts.source ≠ some Source.voice →
       generateSolution env opts voiceActive st0 = ⟨st0, ⟨false, ""⟩, false, false⟩) ∧
    (st0.isAIEnabled = false → opts.source = some Source.auto →
       generateSolution env opts voiceActive st0 = ⟨st0, ⟨false, ""⟩, false, false⟩) ∧
    (st0.canvasShapes = [] → opts.source = some Source.auto →
       generateSolution env opts voiceActive st0 = ⟨st0, ⟨false, ""⟩, false, false⟩) ∧
    (st0.canvasShapes = [] → env.hasEditor = true → st0.isProcessing = false →
       ((opts.source = some Source.chat ∧ voiceActive = false) ∨
         opts.source = some Source.voice) →
       (generateSolution env opts voiceActive st0).remoteCalled = true) := by
  refine ⟨?_, ?_, ?_, ?_, ?_⟩
  · intro h; unfold generateSolution; split_ifs <;> simp_all
  · intro h1 h2; unfold generateSolution; split_ifs <;> simp_all
  · intro h1 h2; unfold generateSolution; split_ifs <;> simp_all
  · intro h1 h2; unfold generateSolution; split_ifs <;> simp_all
  · intro hsh hed hpr hsv
    unfold generateSolution
    have hg1 : ¬(env.hasEditor = false ∨ st0.isProcessing = true ∨
        (voiceActive = true ∧ opts.source ≠ some Source.voice)) := by
      rcases hsv with ⟨hc, hv⟩ | hv <;> simp_all
    have hg2 : ¬(st0.isAIEnabled = false ∧ opts.source = some Source.auto) := by
      rcases hsv with ⟨hc, hv⟩ | hv <;> simp_all
    have hg3 : ¬(st0.canvasShapes = [] ∧ opts.source ≠ some Source.chat ∧
        opts.source ≠ some Source.voice) := by
      rcases hsv with ⟨hc, hv⟩ | hv <;> simp_all
    rw [if_neg hg1, if_neg hg2, if_neg hg3]
    unfold runTry
    have hcap : captureList { st0 with isProcessing := true, hasController := true } = [] := by
      simp [captureList, hsh]
    simp [hcap, runFetch_remoteCalled]

/-- Witness for C3: concrete instances — an in-flight-rejected request, an
auto request with auto-mode disabled, an auto request on an empty canvas,
and a chat request on an empty canvas that does reach the remote call. -/
theorem generateSolution_entry_guards_witness :
    (generateSolution {} { source := some Source.auto } false
        { initialSolverState with isProcessing := true }
      = ⟨{ initialSolverState with isProcessing := true }, ⟨false, ""⟩, false, false⟩) ∧
    (generateSolution {} { source := some Source.auto } false
        { initialSolverState with isAIEnabled := false }
      = ⟨{ initialSolverState with isAIEnabled := false }, ⟨false, ""⟩, false, false⟩) ∧
    (generateSolution {} { source := some Source.auto } false initialSolverState
      = ⟨initialSolverState, ⟨false, ""⟩, false, false⟩) ∧
    (generateSolution {} { source := some Source.chat } false
        initialSolverState).remoteCalled = true :=
  ⟨(generateSolution_entry_guards _ _ _ _).1 (by decide),
   (generateSolution_entry_guards _ _ _ _).2.2.1 (by decide) (by decide),
   (generateSolution_entry_guards _ _ _ _).2.2.2.1 (by decide) (by decide),
   (generateSolution_entry_guards _ _ _ _).2.2.2.2 (by decide) (by decide) (by decide)
     (Or.inl ⟨by decide, by decide⟩)⟩

end NexSolver

namespace NexLayers

/-- C1: the last-layer guard of `deleteLayer` checks
`id === 'default' && layers.length === 1`, so it only protects a sole layer
whose id is literally `'default'`.  After `addLayer` and `deleteLayer('default')`
exactly one layer exists (with a generated id), and deleting it empties the
layer list — the claimed ≥1-layer invariant fails on the code. -/
theorem deleteLayer_sole_nondefault_layer_deleted :
    ((deleteLayer (addLayerR initialRegistry "a") "default").layerSt.layers.length = 1) ∧
    ((deleteLayer (addLayerR initialRegistry "a") "default").layerSt.layers.map Layer.id
        = ["a"]) ∧
    ((deleteLayer (deleteLayer (addLayerR initialRegistry "a") "default")
        "a").layerSt.layers = []) := by decide

/-- C4 counterexample: starting from the default registry, `addLayer` names
the new layer `Layer 2`; deleting it retires the number 2; the next
`addLayer` hands out `Layer 2` again — a retired number is reused. -/
theorem addLayer_reuses_retired_number :
    ((addLayerR initialRegistry "a").layerSt.layers.map Layer.name
        = ["Layer 1", "Layer 2"]) ∧
    ((deleteLayer (addLayerR initialRegistry "a") "a").layerSt.layers.map Layer.name
        = ["Layer 1"]) ∧
    ((addLayerR (deleteLayer (addLayerR initialRegistry "a") "a") "b").layerSt.layers.map
        Layer.name = ["Layer 1", "Layer 2"]) := by decide

/-- C10: `findOrCreateLayer` activates the layer it resolves to, both when
it matches an existing layer and when it creates a new one. -/
theorem findOrCreateLayer_sets_active (st : LayerState) (layerName freshId : String) :
    ((findOrCreateLayer st layerName freshId).2).activeLayerId
      = (findOrCreateLayer st layerName freshId).1 := by
  unfold findOrCreateLayer
  cases st.layers.find? (layerMatches layerName) <;> simp

/-- C8: two consecutive `findOrCreateLayer("Layer 2")` calls resolve to the
same layer id, and the second call leaves the registry state exactly as the
first left it (no duplicate layer). -/
theorem findOrCreateLayer_idempotent_roundtrip (st : LayerState) (f1 f2 : String) :
    (findOrCreateLayer (findOrCreateLayer st "Layer 2" f1).2 "Layer 2" f2).1
      = (findOrCreateLayer st "Layer 2" f1).1 ∧
    (findOrCreateLayer (findOrCreateLayer st "Layer 2" f1).2 "Layer 2" f2).2
      = (findOrCreateLayer st "Layer 2" f1).2 := by
  unfold findOrCreateLayer
  cases hfind : st.layers.find? (layerMatches "Layer 2") with
  | some l => simp [hfind]
  | none =>
      have hmatch : layerMatches "Layer 2"
          { id := f1, name := createdLayerName "Layer 2"
            isVisible := true, isLocked := false } = true := by
        unfold layerMatches
        have : createdLayerName "Layer 2" = "Layer 2" := by decide
        rw [this]
        simp
      simp [hfind, List.find?_append, hmatch]

end NexLayers

namespace NexLayers

theorem init_le_foldl_max (xs : List Nat) (i : Nat) : i ≤ xs.foldl max i := by
  induction xs generalizing i with
  | nil => exact Nat.le_refl i
  | cons b bs ih => exact Nat.le_trans (Nat.le_max_left i b) (ih (max i b))

theorem le_foldl_max (xs : List Nat) (i a : Nat) (h : a ∈ xs) : a ≤ xs.foldl max i := by
  induction xs generalizing i with
  | nil => cases h
  | cons b bs ih =>
      rcases List.mem_cons.mp h with h | h
      · subst h
        exact Nat.le_trans (Nat.le_max_right i a) (init_le_foldl_max bs (max i a))
      · exact ih (max i b) h

theorem foldl_max_mem (xs : List Nat) (i : Nat) :
    xs.foldl max i = i ∨ xs.foldl max i ∈ xs := by
  induction xs generalizing i with
  | nil => left; rfl
  | cons b bs ih =>
      rcases ih (max i b) with h | h
      · rcases max_choice i b with hm | hm
        · left; rw [List.foldl_cons, h, hm]
        · right; rw [List.foldl_cons, h, hm]; exact List.mem_cons_self b bs
      · right; exact List.mem_cons_of_mem b h

/-- C4 (amended): `addLayer` appends exactly one new active layer named
`Layer N`, where `N = nextLayerNumber` is strictly greater than the numeric
suffix of every auto-named layer that currently exists (so names of
existing layers are never duplicated), and `N - 1` is realised by an
existing auto-named layer unless there is none (then `N = 1`).  Nothing
stops a number retired by deletion from being handed out again. -/
theorem addLayer_appends_next_number (st : LayerState) (freshId : String) :
    addLayer st freshId =
      { layers := st.layers ++
          [{ id := freshId, name := "Layer " ++ toString (nextLayerNumber st.layers)
             isVisible := true, isLocked := false }]
        activeLayerId := freshId } ∧
    (∀ l ∈ st.layers, ∀ k, layerNameNumber l.name = some k → 0 < k →
        k < nextLayerNumber st.layers) ∧
    (nextLayerNumber st.layers = 1 ∨
      ∃ l ∈ st.layers, layerNameNumber l.name = some (nextLayerNumber st.layers - 1)) := by
  refine ⟨rfl, ?_, ?_⟩
  · intro l hl k hk hpos
    unfold nextLayerNumber
    have hmem : k ∈ ((st.layers.map (fun l => (layerNameNumber l.name).getD 0)).filter
        (fun n => 0 < n)) := by
      apply List.mem_filter.mpr
      refine ⟨List.mem_map.mpr ⟨l, hl, by simp [hk]⟩, by simpa using hpos⟩
    have hne : ((st.layers.map (fun l => (layerNameNumber l.name).getD 0)).filter
        (fun n => 0 < n)) ≠ [] := by
      intro hcontr; rw [hcontr] at hmem; cases hmem
    have hle := le_foldl_max _ 0 k hmem
    simp only [hne, ne_eq, not_false_eq_true, if_true, if_pos]
    omega
  · unfold nextLayerNumber
    by_cases hne : ((st.layers.map (fun l => (layerNameNumber l.name).getD 0)).filter
        (fun n => 0 < n)) = []
    · left; simp [hne]
    · right
      rcases foldl_max_mem ((st.layers.map (fun l => (layerNameNumber l.name).getD 0)).filter
          (fun n => 0 < n)) 0 with h | h
      · obtain ⟨m, hm⟩ := List.exists_mem_of_ne_nil _ hne
        have h1 := le_foldl_max _ 0 m hm
        have h2 : 0 < m := by simpa using (List.mem_filter.mp hm).2
        rw [h] at h1
        omega
      · have hm := List.mem_filter.mp h
        obtain ⟨l, hl, hval⟩ := List.mem_map.mp hm.1
        refine ⟨l, hl, ?_⟩
        cases hnn : layerNameNumber l.name with
        | none => rw [hnn] at hval; simp at hval; rw [← hval] at hm; simp at hm
        | some v =>
            rw [hnn] at hval
            simp only [Option.getD_some] at hval
            simp only [hne, ne_eq, not_false_eq_true, if_true, if_pos]
            rw [hval]
            simp

/-- Witness for C4 (amended): on the initial single-layer state the strict
bound instantiates at the default layer (`Layer 1`, suffix `1 < 2`), and
the concrete append and activation are visible. -/
theorem addLayer_appends_next_number_witness :
    (1 < nextLayerNumber initialLayerState.layers) ∧
    ((addLayer initialLayerState "a").layers.map Layer.name = ["Layer 1", "Layer 2"]) ∧
    ((addLayer initialLayerState "a").activeLayerId = "a") :=
  ⟨(addLayer_appends_next_number initialLayerState "a").2.1
      { id := "default", name := "Layer 1", isVisible := true, isLocked := false }
      (by decide) 1 (by decide) (by decide),
   by decide, by decide⟩

end NexLayers

namespace NexLayers

theorem lookupMap_cons (e : String × List Nat) (es : ShapeMap) (k : String) :
    lookupMap (e :: es) k = if e.1 = k then some e.2 else lookupMap es k := by
  unfold lookupMap
  by_cases h : e.1 = k <;> simp [List.find?_cons, h]

theorem lookupMap_append (xs ys : ShapeMap) (k : String) :
    lookupMap (xs ++ ys) k =
      match lookupMap xs k with
      | some v => some v
      | none => lookupMap ys k := by
  induction xs with
  | nil => simp [lookupMap]
  | cons e es ih =>
      by_cases h : e.1 = k <;> simp [lookupMap_cons, h, ih]

theorem lookupMap_mapEntries (F : String × List Nat → List Nat) (xs : ShapeMap)
    (k : String) :
    lookupMap (xs.map (fun e => (e.1, F e))) k
      = (xs.find? (fun e => e.1 = k)).map F := by
  induction xs with
  | nil => rfl
  | cons e es ih =>
      by_cases h : e.1 = k <;> simp [lookupMap_cons, List.find?_cons, h, ih]

theorem assign_removal_form (map : ShapeMap) (s : Nat) (l : String) :
    map.map (fun e => if e.1 = l then e else (e.1, e.2.filter (fun i => i ≠ s)))
      = map.map (fun e => (e.1, if e.1 = l then e.2 else e.2.filter (fun i => i ≠ s))) := by
  apply List.map_congr_left
  intro e _
  by_cases h : e.1 = l
  · rw [if_pos h, if_pos h]
  · rw [if_neg h, if_neg h]

theorem assign_append_form (map : ShapeMap) (s : Nat) (l : String) :
    map.map (fun e => if e.1 = l then (e.1, e.2 ++ [s]) else e)
      = map.map (fun e => (e.1, if e.1 = l then e.2 ++ [s] else e.2)) := by
  apply List.map_congr_left
  intro e _
  by_cases h : e.1 = l
  · rw [if_pos h, if_pos h]
  · rw [if_neg h, if_neg h]

theorem lookup_removal (map : ShapeMap) (s : Nat) (l k : String) :
    lookupMap (map.map (fun e => if e.1 = l then e else
        (e.1, e.2.filter (fun i => i ≠ s)))) k
      = if k = l then lookupMap map k
        else (lookupMap map k).map (fun ids => ids.filter (fun i => i ≠ s)) := by
  rw [assign_removal_form, lookupMap_mapEntries]
  cases hf : map.find? (fun e => e.1 = k) with
  | none => unfold lookupMap; rw [hf]; by_cases hkl : k = l <;> simp [hkl]
  | some e =>
      have he : e.1 = k := by simpa using List.find?_some hf
      unfold lookupMap; rw [hf]
      by_cases hkl : k = l <;> simp [hkl, he]

theorem lookup_appendShape (map : ShapeMap) (s : Nat) (l k : String) :
    lookupMap (map.map (fun e => if e.1 = l then (e.1, e.2 ++ [s]) else e)) k
      = if k = l then (lookupMap map k).map (fun ids => ids ++ [s])
        else lookupMap map k := by
  rw [assign_append_form, lookupMap_mapEntries]
  cases hf : map.find? (fun e => e.1 = k) with
  | none => unfold lookupMap; rw [hf]; by_cases hkl : k = l <;> simp [hkl]
  | some e =>
      have he : e.1 = k := by simpa using List.find?_some hf
      unfold lookupMap; rw [hf]
      by_cases hkl : k = l <;> simp [hkl, he]

end NexLayers

namespace NexLayers

theorem filter_idem' (p : Nat → Bool) (xs : List Nat) :
    (xs.filter p).filter p = xs.filter p := by
  induction xs with
  | nil => rfl
  | cons a as ih => by_cases h : p a = true <;> simp [h, ih]

theorem removal_idem (map : ShapeMap) (s : Nat) (l : String) :
    ((map.map (fun e => if e.1 = l then e else (e.1, e.2.filter (fun i => i ≠ s)))).map
        (fun e => if e.1 = l then e else (e.1, e.2.filter (fun i => i ≠ s))))
      = map.map (fun e => if e.1 = l then e else (e.1, e.2.filter (fun i => i ≠ s))) := by
  rw [List.map_map]
  apply List.map_congr_left
  intro e _
  by_cases h : e.1 = l
  · simp [Function.comp, h]
  · simp [Function.comp, h, filter_idem']

/-- C6: after `assignShapeToLayer(shapeId, layerId)` the shape id is in the
target layer's list and in no other layer's list — the removal from the
previous owner happens in the same operation — and repeating the same
assignment leaves the index unchanged. -/
theorem assignShapeToLayer_exclusive_idempotent (map : ShapeMap) (s : Nat) (l : String) :
    (∃ ids, lookupMap (assignShapeToLayer map s l) l = some ids ∧ s ∈ ids) ∧
    (∀ k ids, k ≠ l → lookupMap (assignShapeToLayer map s l) k = some ids → s ∉ ids) ∧
    assignShapeToLayer (assignShapeToLayer map s l) s l = assignShapeToLayer map s l := by
  have hself : ∀ m : ShapeMap,
      lookupMap (m.map (fun e => if e.1 = l then e else
        (e.1, e.2.filter (fun i => i ≠ s)))) l = lookupMap m l := by
    intro m; rw [lookup_removal]; simp
  have hother : ∀ (m : ShapeMap) (k : String), k ≠ l →
      lookupMap (m.map (fun e => if e.1 = l then e else
        (e.1, e.2.filter (fun i => i ≠ s)))) k
        = (lookupMap m k).map (fun ids => ids.filter (fun i => i ≠ s)) := by
    intro m k hk; rw [lookup_removal]; simp [hk]
  rcases hml : lookupMap map l with _ | ids
  · have hA : assignShapeToLayer map s l
        = (map.map (fun e => if e.1 = l then e else
            (e.1, e.2.filter (fun i => i ≠ s)))) ++ [(l, [s])] := by
      simp only [assignShapeToLayer]
      rw [hself, hml]
    rw [hA]
    refine ⟨⟨[s], ?_, by simp⟩, ?_, ?_⟩
    · rw [lookupMap_append, hself, hml]
      simp [lookupMap_cons]
    · intro k ids2 hk hlk
      rw [lookupMap_append, hother _ _ hk] at hlk
      rcases hmk : lookupMap map k with _ | v
      · rw [hmk] at hlk
        simp [lookupMap_cons, lookupMap, Ne.symm hk] at hlk
      · rw [hmk] at hlk
        simp at hlk
        rw [← hlk]
        simp
    · simp only [assignShapeToLayer]
      rw [List.map_append, removal_idem]
      have hg1 : ([((l : String), [s])].map (fun e => if e.1 = l then e else
          (e.1, e.2.filter (fun i => i ≠ s)))) = [(l, [s])] := by simp
      rw [hg1, lookupMap_append, hself, hml]
      simp [lookupMap_cons]
  · by_cases hs : s ∈ ids
    · have hA : assignShapeToLayer map s l
          = map.map (fun e => if e.1 = l then e else
              (e.1, e.2.filter (fun i => i ≠ s))) := by
        simp only [assignShapeToLayer]
        rw [hself, hml]
        simp [hs]
      rw [hA]
      refine ⟨⟨ids, ?_, hs⟩, ?_, ?_⟩
      · rw [hself, hml]
      · intro k ids2 hk hlk
        rw [hother _ _ hk] at hlk
        rcases hmk : lookupMap map k with _ | v
        · rw [hmk] at hlk; simp at hlk
        · rw [hmk] at hlk
          simp at hlk
          rw [← hlk]
          simp
      · simp only [assignShapeToLayer]
        rw [removal_idem, hself, hml]
        simp [hs]
    · have hA : assignShapeToLayer map s l
          = (map.map (fun e => if e.1 = l then e else
              (e.1, e.2.filter (fun i => i ≠ s)))).map
                (fun e => if e.1 = l then (e.1, e.2 ++ [s]) else e) := by
        simp only [assignShapeToLayer]
        rw [hself, hml]
        simp [hs]
      rw [hA]
      refine ⟨⟨ids ++ [s], ?_, by simp⟩, ?_, ?_⟩
      · rw [lookup_appendShape, if_pos rfl, hself, hml]
        rfl
      · intro k ids2 hk hlk
        rw [lookup_appendShape] at hlk
        rw [if_neg hk, hother _ _ hk] at hlk
        rcases hmk : lookupMap map k with _ | v
        · rw [hmk] at hlk; simp at hlk
        · rw [hmk] at hlk
          simp at hlk
          rw [← hlk]
          simp
      · simp only [assignShapeToLayer]
        have hcomp : (((map.map (fun e => if e.1 = l then e else
            (e.1, e.2.filter (fun i => i ≠ s)))).map
              (fun e => if e.1 = l then (e.1, e.2 ++ [s]) else e)).map
                (fun e => if e.1 = l then e else (e.1, e.2.filter (fun i => i ≠ s))))
            = (map.map (fun e => if e.1 = l then e else
                (e.1, e.2.filter (fun i => i ≠ s)))).map
                  (fun e => if e.1 = l then (e.1, e.2 ++ [s]) else e) := by
          rw [List.map_map, List.map_map, List.map_map]
          apply List.map_congr_left
          intro e _
          by_cases h : e.1 = l
          · simp [Function.comp, h]
          · simp [Function.comp, h, filter_idem']
        rw [hcomp, lookup_appendShape, if_pos rfl, hself, hml]
        simp

/-- Witness for C6: moving shape 7 from layer B to layer A leaves B's list
without it, and the assignment is idempotent on this concrete index. -/
theorem assignShapeToLayer_exclusive_idempotent_witness :
    ((7 : Nat) ∉ ([] : List Nat)) ∧
    assignShapeToLayer (assignShapeToLayer [("A", [5]), ("B", [7])] 7 "A") 7 "A"
      = assignShapeToLayer [("A", [5]), ("B", [7])] 7 "A" :=
  ⟨(assignShapeToLayer_exclusive_idempotent [("A", [5]), ("B", [7])] 7 "A").2.1 "B" []
      (by decide) (by decide),
   (assignShapeToLayer_exclusive_idempotent [("A", [5]), ("B", [7])] 7 "A").2.2⟩

end NexLayers

namespace NexVoice

/-- C5 counterexample: a `draw_on_canvas` call whose arguments fail to
parse sends **no** `function_call_output` at all — the early return after
the `JSON.parse` catch answers nothing on the channel (it only sets the
error status), so "exactly one output per call, including malformed JSON
arguments" fails on the code. -/
theorem handleFunctionCall_malformed_args_unanswered :
    ((handleFunctionCall true "draw_on_canvas" none "call-1" {} listeningState).2 = []) ∧
    (countOutputs (handleFunctionCall true "draw_on_canvas" none "call-1" {}
        listeningState).2 "call-1" = 0) ∧
    ((handleFunctionCall true "draw_on_canvas" none "call-1" {} listeningState).1.status
        = VoiceStatus.error) := by decide

/-- C5 (amended): for a call to one of the two known tools whose arguments
parse, exactly one `function_call_output` for that call id is sent —
a thrown tool body is answered with a structured error output rather than
left unanswered — the session stays up (`isSessionActive` untouched), and a
`draw_on_canvas` failure sets the error status with the descriptive
`Tool ... failed: ...` message.  A call with malformed JSON arguments is
the exception: it sends nothing and only sets the error status. -/
theorem handleFunctionCall_known_tool_exactly_one_output (name : String) (a : ToolArgs)
    (callId : String) (env : VoiceEnv) (st : VoiceState)
    (hn : name = "analyze_workspace" ∨ name = "draw_on_canvas") :
    (countOutputs (handleFunctionCall true name (some a) callId env st).2 callId = 1) ∧
    ((handleFunctionCall true name (some a) callId env st).1.isSessionActive
        = st.isSessionActive) ∧
    (∀ m, name = "draw_on_canvas" → env.drawResult = .threw m →
      ((handleFunctionCall true name (some a) callId env st).1.status = VoiceStatus.error ∧
       (handleFunctionCall true name (some a) callId env st).1.statusDetail
          = some ("Tool " ++ name ++ " failed: " ++ m) ∧
       CtrlMsg.functionCallOutput callId (.errorOut m)
          ∈ (handleFunctionCall true name (some a) callId env st).2)) := by
  rcases hn with hn | hn <;> subst hn <;>
    unfold handleFunctionCall
  · rcases env with ⟨img, fok, txt, dr⟩
    rcases img with _ | i
    · simp [toolCatch, setErrorStatus, countOutputs]
    · by_cases hf : fok = false <;>
        simp [hf, toolCatch, setErrorStatus, countOutputs]
  · rcases env with ⟨img, fok, txt, dr⟩
    rcases dr with b | m
    · simp [toolCatch, setErrorStatus, countOutputs]
    · simp [toolCatch, setErrorStatus, countOutputs]

/-- Witness for C5 (amended): a concrete failing `draw_on_canvas` call
sends exactly one output (the structured error), keeps the session active,
and reports the error status with the descriptive message. -/
theorem handleFunctionCall_known_tool_exactly_one_output_witness :
    (countOutputs (handleFunctionCall true "draw_on_canvas" (some {}) "call-2"
        { drawResult := .threw "boom" } listeningState).2 "call-2" = 1) ∧
    ((handleFunctionCall true "draw_on_canvas" (some {}) "call-2"
        { drawResult := .threw "boom" } listeningState).1.statusDetail
      = some "Tool draw_on_canvas failed: boom") :=
  ⟨(handleFunctionCall_known_tool_exactly_one_output "draw_on_canvas" {} "call-2"
      { drawResult := .threw "boom" } listeningState (Or.inr rfl)).1,
   ((handleFunctionCall_known_tool_exactly_one_output "draw_on_canvas" {} "call-2"
      { drawResult := .threw "boom" } listeningState (Or.inr rfl)).2.2 "boom" rfl
        rfl).2.1⟩

end NexVoice

namespace NexRoute

/-- C7: the user-facing text is the stage-1 classifier message whenever that
message is non-empty and otherwise the stage-2 artist text; a non-drawing
classification short-circuits with `success: true`, a null image and the
classifier message; and in the hook a null `imageUrl` produces a text-only
success: status back at idle, no shape, no asset, nothing staged. -/
theorem pipeline_text_preference_and_no_draw (req : RouteReq) (c : ClassifierResp)
    (a : ArtistResp) (env : NexSolver.GenEnv) (opts : NexSolver.GenOptions)
    (st0 : NexSolver.SolverState) :
    (req.source = some "chat" → promptTruthy req.prompt = true →
      c.intent.map NexLayers.jsToLower ≠ some "draw" →
      routePOST req c a = { success := true, imageUrl := none, textContent := c.message }) ∧
    (req.source = some "chat" → promptTruthy req.prompt = true →
      c.intent.map NexLayers.jsToLower = some "draw" → req.hasImage = true →
      c.message ≠ "" → (routePOST req c a).textContent = c.message) ∧
    (req.source = some "chat" → promptTruthy req.prompt = true →
      c.intent.map NexLayers.jsToLower = some "draw" → req.hasImage = true →
      c.message = "" → (routePOST req c a).textContent = a.text) ∧
    (¬(req.source = some "chat" ∧ promptTruthy req.prompt = true) → req.hasImage = true →
      (routePOST req c a).textContent = a.text) ∧
    (env.imageUrl = none → env.hasEditor = true → st0.isProcessing = false →
      env.toImageOk = true → env.fetchOk = true → env.abortAt = none →
      opts.source = some NexSolver.Source.chat →
      ((NexSolver.generateSolution env opts false st0).state.status
          = NexSolver.SolverStatus.idle ∧
       (NexSolver.generateSolution env opts false st0).state.canvasShapes
          = st0.canvasShapes ∧
       (NexSolver.generateSolution env opts false st0).state.assets = st0.assets ∧
       (NexSolver.generateSolution env opts false st0).state.pendingImageIds
          = st0.pendingImageIds ∧
       (NexSolver.generateSolution env opts false st0).result
          = ⟨true, env.textContent⟩)) := by
  refine ⟨?_, ?_, ?_, ?_, ?_⟩
  · intro hc hp hi
    unfold routePOST classifierStage
    simp [hc, hp, hi]
  · intro hc hp hi hhi hm
    unfold routePOST classifierStage
    simp [hc, hp, hi, hhi, NexSolver.jsOr, hm]
  · intro hc hp hi hhi hm
    unfold routePOST classifierStage
    by_cases ha : a.text = "" <;> simp [hc, hp, hi, hhi, NexSolver.jsOr, hm, ha]
  · intro hc hhi
    unfold routePOST classifierStage
    by_cases ha : a.text = "" <;> simp [hc, hhi, NexSolver.jsOr, ha]
  · intro hiu hed hpr htk hfk hab hsrc
    unfold NexSolver.generateSolution
    have hg1 : ¬(env.hasEditor = false ∨ st0.isProcessing = true ∨
        (false = true ∧ opts.source ≠ some NexSolver.Source.voice)) := by
      simp [hed, hpr]
    have hg2 : ¬(st0.isAIEnabled = false ∧ opts.source = some NexSolver.Source.auto) := by
      simp [hsrc]
    have hg3 : ¬(st0.canvasShapes = [] ∧ opts.source ≠ some NexSolver.Source.chat ∧
        opts.source ≠ some NexSolver.Source.voice) := by
      simp [hsrc]
    rw [if_neg hg1, if_neg hg2, if_neg hg3]
    cases hcap : (NexSolver.captureList
        { st0 with isProcessing := true, hasController := true }).isEmpty <;>
      simp [NexSolver.runTry, NexSolver.runFetch, NexSolver.afterJson, hcap, htk, hfk, hiu,
        NexSolver.atAwait_none _ _ _ _ hab, NexSolver.applyFinally]

/-- Witness for C7: a concrete non-drawing chat classification returns
success with the classifier text and no image; a concrete drawing
classification with a non-empty classifier message keeps that message over
the artist text; and a concrete hook run with a null image URL ends at idle
with a text-only success. -/
theorem pipeline_text_preference_and_no_draw_witness :
    (routePOST { hasImage := true, prompt := some "hello", source := some "chat" }
        { message := "Just chatting!", intent := some "RESPOND" } { text := "artist" }
      = { success := true, imageUrl := none, textContent := "Just chatting!" }) ∧
    ((routePOST { hasImage := true, prompt := some "draw a cat", source := some "chat" }
        { message := "Here you go", intent := some "DRAW" }
        { text := "artist", image := some "i" }).textContent = "Here you go") ∧
    ((NexSolver.generateSolution { textContent := "no drawing needed" }
        { source := some NexSolver.Source.chat } false
        NexSolver.initialSolverState).result = ⟨true, "no drawing needed"⟩) :=
  ⟨(pipeline_text_preference_and_no_draw _ _ _ {} {} NexSolver.initialSolverState).1
      (by decide) (by decide) (by decide),
   (pipeline_text_preference_and_no_draw _ _ _ {} {} NexSolver.initialSolverState).2.1
      (by decide) (by decide) (by decide) (by decide) (by decide),
   ((pipeline_text_preference_and_no_draw { hasImage := true } {} {} _ _ _).2.2.2.2
      (by decide) (by decide) (by decide) (by decide) (by decide) (by decide)
      (by decide)).2.2.2.2⟩

end NexRoute
